import Mathlib

/-!
Shallow embedding of `src/script.js` (Ho-67/Color-Picker), a browser RGB
color picker.  Strings are modelled as `List Char`; the DOM state touched by
the script (slider values, hex text field, error CSS class, title color) is
the structure `PageState`.  Randomness (`Math.floor(Math.random() * 256)`) is
modelled by passing the drawn value as a parameter.  Event handlers become
state-transition functions; the DOM mutation that precedes a handler (the
user edit that fired the event) is folded into the transition.
-/

/-- A decoded color, the `{r, g, b}` object returned by `hexToRgb`. -/
structure RGB where
  r : Nat
  g : Nat
  b : Nat
deriving DecidableEq

/-- Whether a character is a hexadecimal digit, i.e. matches the regex
character class `[a-fA-F0-9]` used throughout `script.js`. -/
def isHexDig (c : Char) : Bool :=
  (48 ≤ c.toNat && c.toNat ≤ 57) || (97 ≤ c.toNat && c.toNat ≤ 102) ||
    (65 ≤ c.toNat && c.toNat ≤ 70)

/-- The numeric value of a hex digit, as `parseInt(-, 16)` assigns to a
single digit character.  (Only ever applied to characters satisfying
`isHexDig`; other characters get a dummy value 0.) -/
def hexVal (c : Char) : Nat :=
  if 48 ≤ c.toNat ∧ c.toNat ≤ 57 then c.toNat - 48
  else if 97 ≤ c.toNat ∧ c.toNat ≤ 102 then c.toNat - 87
  else if 65 ≤ c.toNat ∧ c.toNat ≤ 70 then c.toNat - 55
  else 0

/-- `isValidHexChar` from `script.js` line 16: the regex test
`/^[#a-fA-F0-9]*$/.test(str)` — every character is `#` or a hex digit. -/
def isValidHexCharL (cs : List Char) : Bool :=
  cs.all fun c => c = '#' || isHexDig c

/-- String-typed wrapper matching the JS signature of `isValidHexChar`. -/
def isValidHexChar (s : String) : Bool :=
  isValidHexCharL s.toList

/-- The shorthand regex `/^#?([a-f\d])([a-f\d])([a-f\d])$/i` of line 28:
an optional leading `#` followed by exactly three hex digits.  Returns the
three captured digit characters when the whole string matches. -/
def shMatch (cs : List Char) : Option (Char × Char × Char) :=
  match (if cs.head? = some '#' then cs.tail else cs) with
  | [a, b, c] => if isHexDig a && isHexDig b && isHexDig c then some (a, b, c) else none
  | _ => none

/-- Line 29: `hex.replace(shorthandRegex, (m, r, g, b) => r + r + g + g + b + b)` —
when the whole string matches the shorthand pattern it is replaced by the
six-character expansion (the optional `#` is part of the match and is
dropped); otherwise the string is unchanged. -/
def expandShorthand (cs : List Char) : List Char :=
  match shMatch cs with
  | some (a, b, c) => [a, a, b, b, c, c]
  | none => cs

/-- Line 31: `/^#?([a-f\d]{2})([a-f\d]{2})([a-f\d]{2})$/i.exec(hex)` plus the
`parseInt(result[i], 16)` calls of lines 38-42: an optional leading `#`
followed by exactly six hex digits, decoded two digits per channel. -/
def matchSix (cs : List Char) : Option RGB :=
  match (if cs.head? = some '#' then cs.tail else cs) with
  | [a, b, c, d, e, f] =>
      if isHexDig a && isHexDig b && isHexDig c && isHexDig d && isHexDig e && isHexDig f then
        some ⟨16 * hexVal a + hexVal b, 16 * hexVal c + hexVal d, 16 * hexVal e + hexVal f⟩
      else none
  | _ => none

/-- `hexToRgb` from `script.js` lines 26-43, on character lists: expand the
3-digit shorthand, then match the 6-digit form. -/
def hexToRgbL (cs : List Char) : Option RGB :=
  matchSix (expandShorthand cs)

/-- `hexToRgb` with the JS string signature. -/
def hexToRgb (s : String) : Option RGB :=
  hexToRgbL s.toList

/-- Fuel-driven base-16 rendering, mirroring `Number(c).toString(16)` for a
nonnegative integer: most significant digit first, lowercase letters, and
`"0"` for zero.  The fuel (first argument) only bounds the recursion depth. -/
def natToHex16Core : Nat → Nat → List Char
  | 0, _ => []
  | fuel + 1, n =>
      if n < 16 then [Nat.digitChar n]
      else natToHex16Core fuel (n / 16) ++ [Nat.digitChar (n % 16)]

/-- `Number(c).toString(16)` for a natural number `c`. -/
def natToHex16 (n : Nat) : List Char :=
  natToHex16Core (n + 1) n

/-- The inner helper `toHex` of `rgbToHex` (lines 54-57): render in base 16
and left-pad with `0` to two characters when the rendering has length 1. -/
def toHex2 (c : Nat) : List Char :=
  let hex := natToHex16 c
  if hex.length = 1 then '0' :: hex else hex

/-- `rgbToHex` from `script.js` lines 52-59, on character lists:
`"#" + toHex(r) + toHex(g) + toHex(b)`. -/
def rgbToHexL (r g b : Nat) : List Char :=
  '#' :: (toHex2 r ++ toHex2 g ++ toHex2 b)

/-- `rgbToHex` with the JS string signature. -/
def rgbToHex (r g b : Nat) : String :=
  ⟨rgbToHexL r g b⟩

/-- `String.prototype.toUpperCase` on the characters produced here: ASCII
lowercase letters map to uppercase, everything else is unchanged. -/
def jsToUpper (c : Char) : Char :=
  if 97 ≤ c.toNat ∧ c.toNat ≤ 122 then Char.ofNat (c.toNat - 32) else c

/-- `toUpperCase` lifted to character lists. -/
def toUpperL (cs : List Char) : List Char :=
  cs.map jsToUpper

/-- Whitespace as stripped by `String.prototype.trim` (the ASCII cases). -/
def isJsWhitespace (c : Char) : Bool :=
  c = ' ' || c = '\t' || c = '\n' || c = '\x0d' || c = '\x0b' || c = '\x0c'

/-- `hexCodeInput.value.trim()` of line 152: strip leading and trailing
whitespace. -/
def jsTrim (cs : List Char) : List Char :=
  ((cs.dropWhile isJsWhitespace).reverse.dropWhile isJsWhitespace).reverse

/-- The DOM state `script.js` reads and writes: the three slider values
(`ranges[i].value`, kept as numbers), the hex text field value
(`hexCodeInput.value`), the presence of the `error` CSS class on that field,
and the title text color (`title.style.color`). -/
structure PageState where
  r : Nat
  g : Nat
  b : Nat
  hexField : List Char
  error : Bool
  titleColor : String
deriving DecidableEq

/-- The title-color test of lines 82-84,
`r * 0.2126 + g * 0.7152 + b * 0.0722 > 140`.  The source evaluates it in
IEEE-754 doubles; over the full integer domain 0..255 per channel the double
comparison coincides with the exact rational comparison, which clears
denominators to this integer inequality. -/
def lumGt140 (r g b : Nat) : Bool :=
  1400000 < 2126 * r + 7152 * g + 722 * b

/-- `updateColors` from `script.js` lines 64-85: recompute the hex string
from the current slider values, write its uppercase form into the hex field,
and pick the title color by the luminance threshold.  (The body background
color, written on line 74, is not tracked in `PageState`; no claim concerns
it.) -/
def updateColors (s : PageState) : PageState :=
  { s with
    hexField := toUpperL (rgbToHexL s.r s.g s.b)
    titleColor := if lumGt140 s.r s.g s.b then "#333" else "#FFF" }

/-- Set slider `i` to value `v` (`ranges[i].value = v`). -/
def setChannel (i : Fin 3) (v : Nat) (s : PageState) : PageState :=
  if i.val = 0 then { s with r := v }
  else if i.val = 1 then { s with g := v }
  else { s with b := v }

/-- The slider `input` handler of lines 93-99, composed with the user edit
that fired it: the slider now holds `v`; the handler removes the `error`
class and calls `updateColors`.  (The numeric readout of line 95 is display
only and not tracked.) -/
def sliderInput (i : Fin 3) (v : Nat) (s : PageState) : PageState :=
  updateColors { setChannel i v s with error := false }

/-- The per-channel random button handler of lines 102-110; `v` models the
draw `Math.floor(Math.random() * 256)`.  It sets the slider, removes the
`error` class and calls `updateColors`. -/
def randomButtonClick (i : Fin 3) (v : Nat) (s : PageState) : PageState :=
  updateColors { setChannel i v s with error := false }

/-- The random-all button handler of lines 113-121; `v1 v2 v3` model the
three draws.  All three sliders are set, then the `error` class is removed
and `updateColors` runs once. -/
def randomAllClick (v1 v2 v3 : Nat) (s : PageState) : PageState :=
  updateColors { s with r := v1, g := v2, b := v3, error := false }

/-- The text handed to `navigator.clipboard.writeText` by the copy button
handler (lines 124-133): `hexCodeInput.value` at click time. -/
def copiedText (s : PageState) : List Char :=
  s.hexField

/-- The hex field `input` handler of lines 151-200, composed with the user
edit that fired it: the field now holds `t`.  The handler trims, rejects on
an invalid character, otherwise tries `hexToRgb` and falls through the
length-based branches B-E. -/
def hexInput (t : List Char) (s : PageState) : PageState :=
  let s1 := { s with hexField := t }
  let hex := jsTrim t
  if ¬ isValidHexCharL hex then { s1 with error := true }
  else
    match hexToRgbL hex with
    | some rgb => updateColors { s1 with r := rgb.r, g := rgb.g, b := rgb.b, error := false }
    | none =>
        if hex.length > 7 then { s1 with error := true }
        else if 2 ≤ hex.length ∧ hex.length < 7 then { s1 with error := false }
        else if hex.length = 7 then { s1 with error := true }
        else { s1 with error := false }

/-- The canonical display form of a color: the uppercase form of
`rgbToHex`, exactly what `updateColors` writes into the hex field. -/
def canonicalHex (r g b : Nat) : List Char :=
  toUpperL (rgbToHexL r g b)

/-- A concrete base state used to build closed instances of the theorems. -/
def initSt : PageState :=
  { r := 0, g := 0, b := 0, hexField := [], error := false, titleColor := "" }

/-! ### Helper lemmas about the encoding primitives -/

set_option maxRecDepth 4000 in
theorem toHex2_eq : ∀ n < 256, toHex2 n = [Nat.digitChar (n / 16), Nat.digitChar (n % 16)] := by
  decide

theorem digitChar_isHexDig : ∀ d < 16, isHexDig (Nat.digitChar d) = true := by
  decide

theorem digitChar_hexVal : ∀ d < 16, hexVal (Nat.digitChar d) = d := by
  decide

theorem hexVal_lt (c : Char) : hexVal c < 16 := by
  unfold hexVal
  split <;> try omega
  split <;> try omega
  split <;> omega

theorem hexToRgbL_canonical (r g b : Nat) (hr : r < 256) (hg : g < 256) (hb : b < 256) :
    hexToRgbL (rgbToHexL r g b) = some ⟨r, g, b⟩ := by
  have h1 : r / 16 < 16 := Nat.div_lt_of_lt_mul (by omega)
  have h2 : r % 16 < 16 := Nat.mod_lt _ (by omega)
  have h3 : g / 16 < 16 := Nat.div_lt_of_lt_mul (by omega)
  have h4 : g % 16 < 16 := Nat.mod_lt _ (by omega)
  have h5 : b / 16 < 16 := Nat.div_lt_of_lt_mul (by omega)
  have h6 : b % 16 < 16 := Nat.mod_lt _ (by omega)
  unfold hexToRgbL rgbToHexL
  rw [toHex2_eq r hr, toHex2_eq g hg, toHex2_eq b hb]
  simp only [List.cons_append, List.nil_append]
  unfold expandShorthand shMatch matchSix
  simp only [List.head?_cons, List.tail_cons, if_pos rfl,
    digitChar_isHexDig _ h1, digitChar_isHexDig _ h2, digitChar_isHexDig _ h3,
    digitChar_isHexDig _ h4, digitChar_isHexDig _ h5, digitChar_isHexDig _ h6,
    digitChar_hexVal _ h1, digitChar_hexVal _ h2, digitChar_hexVal _ h3,
    digitChar_hexVal _ h4, digitChar_hexVal _ h5, digitChar_hexVal _ h6,
    Bool.and_self, if_true, Option.some.injEq, RGB.mk.injEq]
  refine ⟨?_, ?_, ?_⟩ <;> omega

theorem shMatch_inv (cs : List Char) (a b c : Char) (h : shMatch cs = some (a, b, c)) :
    (cs = [a, b, c] ∨ cs = ['#', a, b, c]) ∧
      isHexDig a = true ∧ isHexDig b = true ∧ isHexDig c = true := by
  unfold shMatch at h
  split at h
  · rename_i x y z hh
    split at h
    · rename_i heq
      simp only [Option.some.injEq, Prod.mk.injEq] at h
      obtain ⟨rfl, rfl, rfl⟩ := h
      simp only [Bool.and_eq_true] at heq
      refine ⟨?_, heq.1.1, heq.1.2, heq.2⟩
      split at hh
      next hhd =>
        cases cs with
        | nil => simp at hhd
        | cons x0 xs =>
          simp only [List.head?_cons, Option.some.injEq] at hhd
          simp only [List.tail_cons] at hh
          right
          rw [hhd, hh]
      next => exact Or.inl hh
    · exact absurd h (by simp)
  · exact absurd h (by simp)

theorem matchSix_inv (cs : List Char) (rgb : RGB) (h : matchSix cs = some rgb) :
    ∃ a b c d e f : Char,
      (cs = [a, b, c, d, e, f] ∨ cs = '#' :: [a, b, c, d, e, f]) ∧
        isHexDig a = true ∧ isHexDig b = true ∧ isHexDig c = true ∧
          isHexDig d = true ∧ isHexDig e = true ∧ isHexDig f = true ∧
            rgb = ⟨16 * hexVal a + hexVal b, 16 * hexVal c + hexVal d, 16 * hexVal e + hexVal f⟩ := by
  unfold matchSix at h
  split at h
  · rename_i a b c d e f hh
    split at h
    · rename_i heq
      simp only [Option.some.injEq] at h
      simp only [Bool.and_eq_true] at heq
      refine ⟨a, b, c, d, e, f, ?_, ?_, ?_, ?_, ?_, ?_, ?_, h.symm⟩
      · split at hh
        next hhd =>
          cases cs with
          | nil => simp at hhd
          | cons x0 xs =>
            simp only [List.head?_cons, Option.some.injEq] at hhd
            simp only [List.tail_cons] at hh
            right
            rw [hhd, hh]
        next => exact Or.inl hh
      all_goals simp_all
    · exact absurd h (by simp)
  · exact absurd h (by simp)

theorem hexToRgbL_le (cs : List Char) (rgb : RGB) (h : hexToRgbL cs = some rgb) :
    rgb.r ≤ 255 ∧ rgb.g ≤ 255 ∧ rgb.b ≤ 255 := by
  unfold hexToRgbL at h
  obtain ⟨a, b, c, d, e, f, _, _, _, _, _, _, _, hrgb⟩ := matchSix_inv _ _ h
  have := hexVal_lt a
  have := hexVal_lt b
  have := hexVal_lt c
  have := hexVal_lt d
  have := hexVal_lt e
  have := hexVal_lt f
  subst hrgb
  refine ⟨?_, ?_, ?_⟩ <;> simp <;> omega

theorem valid_of_hexToRgbL (cs : List Char) (rgb : RGB) (h : hexToRgbL cs = some rgb) :
    isValidHexCharL cs = true := by
  unfold hexToRgbL expandShorthand at h
  cases hsh : shMatch cs with
  | some p =>
    obtain ⟨a, b, c⟩ := p
    obtain ⟨hcs, ha, hb, hc⟩ := shMatch_inv _ _ _ _ hsh
    rcases hcs with hcs | hcs <;> subst hcs <;> simp [isValidHexCharL, ha, hb, hc]
  | none =>
    rw [hsh] at h
    obtain ⟨a, b, c, d, e, f, hcs, ha, hb, hc, hd, he, hf, _⟩ := matchSix_inv _ _ h
    rcases hcs with hcs | hcs <;> subst hcs <;>
      simp [isValidHexCharL, ha, hb, hc, hd, he, hf]

theorem shMatch_none_of_length (cs : List Char) (h3 : cs.length ≠ 3) (h4 : cs.length ≠ 4) :
    shMatch cs = none := by
  unfold shMatch
  split
  · rename_i a b c hh
    exfalso
    split at hh
    · rename_i hhd
      cases cs with
      | nil => simp at hh
      | cons x0 xs =>
        have := congrArg List.length hh
        simp at this
        simp [this] at h4
    · have := congrArg List.length hh
      simp at this
      exact h3 this
  · rfl

theorem matchSix_none_of_length (cs : List Char) (h6 : cs.length ≠ 6) (h7 : cs.length ≠ 7) :
    matchSix cs = none := by
  unfold matchSix
  split
  · rename_i a b c d e f hh
    exfalso
    split at hh
    · rename_i hhd
      cases cs with
      | nil => simp at hh
      | cons x0 xs =>
        have := congrArg List.length hh
        simp at this
        simp [this] at h7
    · have := congrArg List.length hh
      simp at this
      exact h6 this
  · rfl

theorem hexToRgbL_none_of_long (cs : List Char) (h : 7 < cs.length) : hexToRgbL cs = none := by
  unfold hexToRgbL expandShorthand
  rw [shMatch_none_of_length cs (by omega) (by omega)]
  exact matchSix_none_of_length cs (by omega) (by omega)

theorem setChannel_le (i : Fin 3) (v : Nat) (s : PageState)
    (hr : s.r ≤ 255) (hg : s.g ≤ 255) (hb : s.b ≤ 255) (hv : v ≤ 255) :
    (setChannel i v s).r ≤ 255 ∧ (setChannel i v s).g ≤ 255 ∧ (setChannel i v s).b ≤ 255 := by
  unfold setChannel
  split_ifs <;> simp_all

theorem hexInput_success_eq (s : PageState) (t : List Char) (rgb : RGB)
    (h : hexToRgbL (jsTrim t) = some rgb) :
    hexInput t s =
      updateColors
        { r := rgb.r, g := rgb.g, b := rgb.b, hexField := t, error := false,
          titleColor := s.titleColor } := by
  have hv := valid_of_hexToRgbL _ _ h
  simp only [hexInput, hv, h, not_true, if_false]

theorem hexInput_invalid_eq (s : PageState) (t : List Char)
    (hv : isValidHexCharL (jsTrim t) = false) :
    hexInput t s = { s with hexField := t, error := true } := by
  simp only [hexInput, hv, Bool.false_eq_true, not_false_eq_true, if_true]

theorem hexInput_long_eq (s : PageState) (t : List Char)
    (hv : isValidHexCharL (jsTrim t) = true) (hl : 7 < (jsTrim t).length) :
    hexInput t s = { s with hexField := t, error := true } := by
  have hn : hexToRgbL (jsTrim t) = none := hexToRgbL_none_of_long _ hl
  simp only [hexInput, hv, hn, not_true, if_false, if_pos hl]

theorem hexInput_mid_eq (s : PageState) (t : List Char)
    (hv : isValidHexCharL (jsTrim t) = true) (hn : hexToRgbL (jsTrim t) = none)
    (h2 : 2 ≤ (jsTrim t).length) (h7 : (jsTrim t).length < 7) :
    hexInput t s = { s with hexField := t, error := false } := by
  simp only [hexInput, hv, hn, not_true, if_false]
  rw [if_neg (by omega), if_pos ⟨h2, h7⟩]

theorem hexInput_seven_eq (s : PageState) (t : List Char)
    (hv : isValidHexCharL (jsTrim t) = true) (hn : hexToRgbL (jsTrim t) = none)
    (h7 : (jsTrim t).length = 7) :
    hexInput t s = { s with hexField := t, error := true } := by
  simp only [hexInput, hv, hn, not_true, if_false]
  rw [if_neg (by omega), if_neg (by omega), if_pos h7]

/-- The luminance comparison written with the decimal weights of the spec,
as an exact rational inequality, is the integer comparison `lumGt140`
computes. -/
theorem lumQ_iff (r g b : Nat) :
    (140 < (r : ℚ) * 0.2126 + (g : ℚ) * 0.7152 + (b : ℚ) * 0.0722) ↔
      (1400000 < 2126 * r + 7152 * g + 722 * b) := by
  constructor
  · intro h
    have hq : (1400000 : ℚ) < 2126 * r + 7152 * g + 722 * b := by linarith
    exact_mod_cast hq
  · intro h
    have hq : (1400000 : ℚ) < 2126 * (r : ℚ) + 7152 * g + 722 * b := by exact_mod_cast h
    linarith

/-! ### Claim theorems -/

/-- C1: for all integer channels r, g, b in [0,255], decoding the encoding
round-trips: `hexToRgb (rgbToHex r g b)` returns exactly the record
`{r, g, b}`. -/
theorem hexToRgb_rgbToHex_roundtrip (r g b : Nat) (hr : r ≤ 255) (hg : g ≤ 255) (hb : b ≤ 255) :
    hexToRgb (rgbToHex r g b) = some ⟨r, g, b⟩ := by
  show hexToRgbL (rgbToHexL r g b) = some ⟨r, g, b⟩
  exact hexToRgbL_canonical r g b (by omega) (by omega) (by omega)

/-- Witness for C1 at the concrete channels (255, 0, 170). -/
theorem hexToRgb_rgbToHex_roundtrip_witness :
    hexToRgb (rgbToHex 255 0 170) = some ⟨255, 0, 170⟩ :=
  hexToRgb_rgbToHex_roundtrip 255 0 170 (by decide) (by decide) (by decide)

/-- C2: after every state-mutating operation (slider change, per-channel
randomize, randomize-all, accepted hex entry) all three channel values are
in [0,255], and the hex field holds the canonical uppercase encoding of the
resulting channels.  Slider and randomize values carry the DOM/`Math.random`
bound `v ≤ 255`; the starting channels are assumed in range for the
single-channel operations. -/
theorem mutating_ops_settle :
    (∀ (s : PageState) (i : Fin 3) (v : Nat), s.r ≤ 255 → s.g ≤ 255 → s.b ≤ 255 → v ≤ 255 →
      (sliderInput i v s).r ≤ 255 ∧ (sliderInput i v s).g ≤ 255 ∧ (sliderInput i v s).b ≤ 255 ∧
        (sliderInput i v s).hexField =
          canonicalHex (sliderInput i v s).r (sliderInput i v s).g (sliderInput i v s).b) ∧
    (∀ (s : PageState) (i : Fin 3) (v : Nat), s.r ≤ 255 → s.g ≤ 255 → s.b ≤ 255 → v ≤ 255 →
      (randomButtonClick i v s).r ≤ 255 ∧ (randomButtonClick i v s).g ≤ 255 ∧
        (randomButtonClick i v s).b ≤ 255 ∧
        (randomButtonClick i v s).hexField =
          canonicalHex (randomButtonClick i v s).r (randomButtonClick i v s).g
            (randomButtonClick i v s).b) ∧
    (∀ (s : PageState) (v1 v2 v3 : Nat), v1 ≤ 255 → v2 ≤ 255 → v3 ≤ 255 →
      (randomAllClick v1 v2 v3 s).r ≤ 255 ∧ (randomAllClick v1 v2 v3 s).g ≤ 255 ∧
        (randomAllClick v1 v2 v3 s).b ≤ 255 ∧
        (randomAllClick v1 v2 v3 s).hexField =
          canonicalHex (randomAllClick v1 v2 v3 s).r (randomAllClick v1 v2 v3 s).g
            (randomAllClick v1 v2 v3 s).b) ∧
    (∀ (s : PageState) (t : List Char) (rgb : RGB), hexToRgbL (jsTrim t) = some rgb →
      (hexInput t s).r ≤ 255 ∧ (hexInput t s).g ≤ 255 ∧ (hexInput t s).b ≤ 255 ∧
        (hexInput t s).hexField =
          canonicalHex (hexInput t s).r (hexInput t s).g (hexInput t s).b) := by
  refine ⟨?_, ?_, ?_, ?_⟩
  · intro s i v hr hg hb hv
    obtain ⟨h1, h2, h3⟩ := setChannel_le i v s hr hg hb hv
    exact ⟨h1, h2, h3, rfl⟩
  · intro s i v hr hg hb hv
    obtain ⟨h1, h2, h3⟩ := setChannel_le i v s hr hg hb hv
    exact ⟨h1, h2, h3, rfl⟩
  · intro s v1 v2 v3 h1 h2 h3
    exact ⟨h1, h2, h3, rfl⟩
  · intro s t rgb h
    have hle := hexToRgbL_le _ _ h
    rw [hexInput_success_eq s t rgb h]
    exact ⟨hle.1, hle.2.1, hle.2.2, rfl⟩

/-- Witness for C2: one concrete instance of each of the four operations. -/
theorem mutating_ops_settle_witness :
    ((sliderInput 0 7 initSt).r ≤ 255 ∧ (sliderInput 0 7 initSt).g ≤ 255 ∧
      (sliderInput 0 7 initSt).b ≤ 255 ∧
      (sliderInput 0 7 initSt).hexField =
        canonicalHex (sliderInput 0 7 initSt).r (sliderInput 0 7 initSt).g
          (sliderInput 0 7 initSt).b) ∧
    ((randomButtonClick 1 200 initSt).r ≤ 255 ∧ (randomButtonClick 1 200 initSt).g ≤ 255 ∧
      (randomButtonClick 1 200 initSt).b ≤ 255 ∧
      (randomButtonClick 1 200 initSt).hexField =
        canonicalHex (randomButtonClick 1 200 initSt).r (randomButtonClick 1 200 initSt).g
          (randomButtonClick 1 200 initSt).b) ∧
    ((randomAllClick 1 2 3 initSt).r ≤ 255 ∧ (randomAllClick 1 2 3 initSt).g ≤ 255 ∧
      (randomAllClick 1 2 3 initSt).b ≤ 255 ∧
      (randomAllClick 1 2 3 initSt).hexField =
        canonicalHex (randomAllClick 1 2 3 initSt).r (randomAllClick 1 2 3 initSt).g
          (randomAllClick 1 2 3 initSt).b) ∧
    ((hexInput ['F', '0', 'A'] initSt).r ≤ 255 ∧ (hexInput ['F', '0', 'A'] initSt).g ≤ 255 ∧
      (hexInput ['F', '0', 'A'] initSt).b ≤ 255 ∧
      (hexInput ['F', '0', 'A'] initSt).hexField =
        canonicalHex (hexInput ['F', '0', 'A'] initSt).r (hexInput ['F', '0', 'A'] initSt).g
          (hexInput ['F', '0', 'A'] initSt).b) :=
  ⟨mutating_ops_settle.1 initSt 0 7 (by decide) (by decide) (by decide) (by decide),
   mutating_ops_settle.2.1 initSt 1 200 (by decide) (by decide) (by decide) (by decide),
   mutating_ops_settle.2.2.1 initSt 1 2 3 (by decide) (by decide) (by decide),
   mutating_ops_settle.2.2.2 initSt ['F', '0', 'A'] ⟨255, 0, 170⟩ (by decide)⟩

/-- C3: for every input whose trimmed form decodes as a 3-digit or 6-digit
hex code (optional leading `#`), the hex-input handler updates all three
channels to the decoded values and clears the error state; in particular
entering FF00AA gives (255, 0, 170) and the shorthand F0A gives the same. -/
theorem hexInput_valid_updates :
    (∀ (s : PageState) (t : List Char) (rgb : RGB), hexToRgbL (jsTrim t) = some rgb →
      (hexInput t s).r = rgb.r ∧ (hexInput t s).g = rgb.g ∧ (hexInput t s).b = rgb.b ∧
        (hexInput t s).error = false) ∧
    (∀ s : PageState, (hexInput ['F', 'F', '0', '0', 'A', 'A'] s).r = 255 ∧
      (hexInput ['F', 'F', '0', '0', 'A', 'A'] s).g = 0 ∧
      (hexInput ['F', 'F', '0', '0', 'A', 'A'] s).b = 170 ∧
      (hexInput ['F', 'F', '0', '0', 'A', 'A'] s).error = false) ∧
    (∀ s : PageState, (hexInput ['F', '0', 'A'] s).r = 255 ∧
      (hexInput ['F', '0', 'A'] s).g = 0 ∧ (hexInput ['F', '0', 'A'] s).b = 170 ∧
      (hexInput ['F', '0', 'A'] s).error = false) := by
  have main : ∀ (s : PageState) (t : List Char) (rgb : RGB), hexToRgbL (jsTrim t) = some rgb →
      (hexInput t s).r = rgb.r ∧ (hexInput t s).g = rgb.g ∧ (hexInput t s).b = rgb.b ∧
        (hexInput t s).error = false := by
    intro s t rgb h
    rw [hexInput_success_eq s t rgb h]
    exact ⟨rfl, rfl, rfl, rfl⟩
  exact ⟨main, fun s => main s _ ⟨255, 0, 170⟩ (by decide),
    fun s => main s _ ⟨255, 0, 170⟩ (by decide)⟩

/-- Witness for C3: entering FF00AA from the base state. -/
theorem hexInput_valid_updates_witness :
    (hexInput ['F', 'F', '0', '0', 'A', 'A'] initSt).r = 255 ∧
      (hexInput ['F', 'F', '0', '0', 'A', 'A'] initSt).g = 0 ∧
      (hexInput ['F', 'F', '0', '0', 'A', 'A'] initSt).b = 170 ∧
      (hexInput ['F', 'F', '0', '0', 'A', 'A'] initSt).error = false :=
  hexInput_valid_updates.1 initSt ['F', 'F', '0', '0', 'A', 'A'] ⟨255, 0, 170⟩ (by decide)

/-- C4: for every input whose trimmed form contains a character outside
`#0-9a-fA-F`, the hex-input handler sets the error state and leaves all
three channels unchanged. -/
theorem hexInput_invalid_char_error (s : PageState) (t : List Char) (c : Char)
    (hc : c ∈ jsTrim t) (hno : c ≠ '#') (hnd : isHexDig c = false) :
    (hexInput t s).r = s.r ∧ (hexInput t s).g = s.g ∧ (hexInput t s).b = s.b ∧
      (hexInput t s).error = true := by
  have hv : isValidHexCharL (jsTrim t) = false := by
    cases hb : isValidHexCharL (jsTrim t) with
    | false => rfl
    | true =>
      have := List.all_eq_true.mp hb c hc
      simp [hno, hnd] at this
  rw [hexInput_invalid_eq s t hv]
  exact ⟨rfl, rfl, rfl, rfl⟩

/-- Witness for C4: entering GGHHII from the base state. -/
theorem hexInput_invalid_char_error_witness :
    (hexInput ['G', 'G', 'H', 'H', 'I', 'I'] initSt).r = initSt.r ∧
      (hexInput ['G', 'G', 'H', 'H', 'I', 'I'] initSt).g = initSt.g ∧
      (hexInput ['G', 'G', 'H', 'H', 'I', 'I'] initSt).b = initSt.b ∧
      (hexInput ['G', 'G', 'H', 'H', 'I', 'I'] initSt).error = true :=
  hexInput_invalid_char_error initSt ['G', 'G', 'H', 'H', 'I', 'I'] 'G' (by decide) (by decide)
    (by decide)

/-- C5: for every input whose trimmed form has length 2..6, only valid hex
characters, and no full 3- or 6-digit match, the handler clears the error
state and leaves the channels unchanged (typing in progress). -/
theorem hexInput_partial_neutral (s : PageState) (t : List Char)
    (hv : isValidHexCharL (jsTrim t) = true) (hn : hexToRgbL (jsTrim t) = none)
    (h2 : 2 ≤ (jsTrim t).length) (h6 : (jsTrim t).length ≤ 6) :
    (hexInput t s).r = s.r ∧ (hexInput t s).g = s.g ∧ (hexInput t s).b = s.b ∧
      (hexInput t s).error = false := by
  rw [hexInput_mid_eq s t hv hn h2 (by omega)]
  exact ⟨rfl, rfl, rfl, rfl⟩

/-- Witness for C5: the partial input `#FF` from the base state. -/
theorem hexInput_partial_neutral_witness :
    (hexInput ['#', 'F', 'F'] initSt).r = initSt.r ∧
      (hexInput ['#', 'F', 'F'] initSt).g = initSt.g ∧
      (hexInput ['#', 'F', 'F'] initSt).b = initSt.b ∧
      (hexInput ['#', 'F', 'F'] initSt).error = false :=
  hexInput_partial_neutral initSt ['#', 'F', 'F'] (by decide) (by decide) (by decide) (by decide)

/-- C6: for every valid-character input whose trimmed form is longer than 7
characters, and every such input of length exactly 7 that does not decode,
the handler sets the error state and leaves the channels unchanged. -/
theorem hexInput_overlong_error :
    (∀ (s : PageState) (t : List Char), isValidHexCharL (jsTrim t) = true →
      7 < (jsTrim t).length →
      (hexInput t s).r = s.r ∧ (hexInput t s).g = s.g ∧ (hexInput t s).b = s.b ∧
        (hexInput t s).error = true) ∧
    (∀ (s : PageState) (t : List Char), isValidHexCharL (jsTrim t) = true →
      (jsTrim t).length = 7 → hexToRgbL (jsTrim t) = none →
      (hexInput t s).r = s.r ∧ (hexInput t s).g = s.g ∧ (hexInput t s).b = s.b ∧
        (hexInput t s).error = true) := by
  constructor
  · intro s t hv hl
    rw [hexInput_long_eq s t hv hl]
    exact ⟨rfl, rfl, rfl, rfl⟩
  · intro s t hv h7 hn
    rw [hexInput_seven_eq s t hv hn h7]
    exact ⟨rfl, rfl, rfl, rfl⟩

/-- Witness for C6: the 8-character input `#FFFFFFF`, and the 7-character
non-matching input `#FFFFF#`. -/
theorem hexInput_overlong_error_witness :
    ((hexInput ['#', 'F', 'F', 'F', 'F', 'F', 'F', 'F'] initSt).r = initSt.r ∧
      (hexInput ['#', 'F', 'F', 'F', 'F', 'F', 'F', 'F'] initSt).g = initSt.g ∧
      (hexInput ['#', 'F', 'F', 'F', 'F', 'F', 'F', 'F'] initSt).b = initSt.b ∧
      (hexInput ['#', 'F', 'F', 'F', 'F', 'F', 'F', 'F'] initSt).error = true) ∧
    ((hexInput ['#', 'F', 'F', 'F', 'F', 'F', '#'] initSt).r = initSt.r ∧
      (hexInput ['#', 'F', 'F', 'F', 'F', 'F', '#'] initSt).g = initSt.g ∧
      (hexInput ['#', 'F', 'F', 'F', 'F', 'F', '#'] initSt).b = initSt.b ∧
      (hexInput ['#', 'F', 'F', 'F', 'F', 'F', '#'] initSt).error = true) :=
  ⟨hexInput_overlong_error.1 initSt ['#', 'F', 'F', 'F', 'F', 'F', 'F', 'F'] (by decide)
      (by decide),
   hexInput_overlong_error.2 initSt ['#', 'F', 'F', 'F', 'F', 'F', '#'] (by decide) (by decide)
      (by decide)⟩

/-- C7 counterexample: in the reachable state obtained by randomizing all
channels to (12, 34, 56) and then typing `GG` into the hex field, the copy
button hands the field text `GG` to the clipboard, not the canonical
encoding of the current channel values. -/
theorem copy_not_canonical_midEdit :
    copiedText (hexInput ['G', 'G'] (randomAllClick 12 34 56 initSt)) ≠
      canonicalHex (hexInput ['G', 'G'] (randomAllClick 12 34 56 initSt)).r
        (hexInput ['G', 'G'] (randomAllClick 12 34 56 initSt)).g
        (hexInput ['G', 'G'] (randomAllClick 12 34 56 initSt)).b := by
  decide

/-- C7 (amended): the copy button writes the current hex field text to the
clipboard; whenever the field mirrors the channels (every settled state)
that text is the canonical uppercase encoding of (r, g, b). -/
theorem copy_writes_field_value :
    (∀ s : PageState, copiedText s = s.hexField) ∧
    (∀ s : PageState, s.hexField = canonicalHex s.r s.g s.b →
      copiedText s = canonicalHex s.r s.g s.b) :=
  ⟨fun _ => rfl, fun _ h => h⟩

/-- Witness for the amended C7 at the settled state reached by
randomize-all to (12, 34, 56). -/
theorem copy_writes_field_value_witness :
    copiedText (randomAllClick 12 34 56 initSt) =
      canonicalHex (randomAllClick 12 34 56 initSt).r (randomAllClick 12 34 56 initSt).g
        (randomAllClick 12 34 56 initSt).b :=
  copy_writes_field_value.2 (randomAllClick 12 34 56 initSt) (by decide)

/-- C8: the title color is chosen by the strict comparison
`r * 0.2126 + g * 0.7152 + b * 0.0722 > 140`: above 140 gives the dark
label `#333`, at or below 140 (including exactly 140) gives the light label
`#FFF`; white gives the dark label and black the light one. -/
theorem title_color_threshold :
    (∀ s : PageState, (updateColors s).titleColor =
      if 140 < (s.r : ℚ) * 0.2126 + (s.g : ℚ) * 0.7152 + (s.b : ℚ) * 0.0722 then "#333"
      else "#FFF") ∧
    (∀ s : PageState, (s.r : ℚ) * 0.2126 + (s.g : ℚ) * 0.7152 + (s.b : ℚ) * 0.0722 = 140 →
      (updateColors s).titleColor = "#FFF") ∧
    (∀ s : PageState, s.r = 255 → s.g = 255 → s.b = 255 → (updateColors s).titleColor = "#333") ∧
    (∀ s : PageState, s.r = 0 → s.g = 0 → s.b = 0 → (updateColors s).titleColor = "#FFF") := by
  have main : ∀ s : PageState, (updateColors s).titleColor =
      if 140 < (s.r : ℚ) * 0.2126 + (s.g : ℚ) * 0.7152 + (s.b : ℚ) * 0.0722 then "#333"
      else "#FFF" := by
    intro s
    by_cases hq : 140 < (s.r : ℚ) * 0.2126 + (s.g : ℚ) * 0.7152 + (s.b : ℚ) * 0.0722
    · rw [if_pos hq]
      have hn := (lumQ_iff s.r s.g s.b).mp hq
      simp [updateColors, lumGt140, hn]
    · rw [if_neg hq]
      have hn : ¬ (1400000 < 2126 * s.r + 7152 * s.g + 722 * s.b) := fun hh =>
        hq ((lumQ_iff s.r s.g s.b).mpr hh)
      simp [updateColors, lumGt140, hn]
  refine ⟨main, ?_, ?_, ?_⟩
  · intro s heq
    rw [main s, if_neg (by rw [heq]; exact lt_irrefl _)]
  · intro s h1 h2 h3
    have hb : lumGt140 s.r s.g s.b = true := by rw [h1, h2, h3]; decide
    simp [updateColors, hb]
  · intro s h1 h2 h3
    have hb : lumGt140 s.r s.g s.b = false := by rw [h1, h2, h3]; decide
    simp [updateColors, hb]

/-- Witness for C8 at the boundary gray (140, 140, 140), white and black. -/
theorem title_color_threshold_witness :
    (updateColors ⟨140, 140, 140, [], false, ""⟩).titleColor = "#FFF" ∧
      (updateColors ⟨255, 255, 255, [], false, ""⟩).titleColor = "#333" ∧
      (updateColors ⟨0, 0, 0, [], false, ""⟩).titleColor = "#FFF" :=
  ⟨title_color_threshold.2.1 ⟨140, 140, 140, [], false, ""⟩ (by norm_num),
   title_color_threshold.2.2.1 ⟨255, 255, 255, [], false, ""⟩ rfl rfl rfl,
   title_color_threshold.2.2.2 ⟨0, 0, 0, [], false, ""⟩ rfl rfl rfl⟩

/-- C9: for all integer channels in [0,255], `rgbToHex` returns a leading
`#` followed by exactly six hexadecimal characters. -/
theorem rgbToHex_format (r g b : Nat) (hr : r ≤ 255) (hg : g ≤ 255) (hb : b ≤ 255) :
    (rgbToHex r g b).length = 7 ∧ (rgbToHex r g b).toList.head? = some '#' ∧
      ∀ c ∈ (rgbToHex r g b).toList.tail, isHexDig c = true := by
  have h1 : r / 16 < 16 := Nat.div_lt_of_lt_mul (by omega)
  have h2 : r % 16 < 16 := Nat.mod_lt _ (by omega)
  have h3 : g / 16 < 16 := Nat.div_lt_of_lt_mul (by omega)
  have h4 : g % 16 < 16 := Nat.mod_lt _ (by omega)
  have h5 : b / 16 < 16 := Nat.div_lt_of_lt_mul (by omega)
  have h6 : b % 16 < 16 := Nat.mod_lt _ (by omega)
  have e1 : (rgbToHex r g b).toList = rgbToHexL r g b := rfl
  have e2 : (rgbToHex r g b).length = (rgbToHexL r g b).length := rfl
  rw [e1, e2]
  unfold rgbToHexL
  rw [toHex2_eq r (by omega), toHex2_eq g (by omega), toHex2_eq b (by omega)]
  refine ⟨by simp, by simp, ?_⟩
  simp [digitChar_isHexDig _ h1, digitChar_isHexDig _ h2, digitChar_isHexDig _ h3,
    digitChar_isHexDig _ h4, digitChar_isHexDig _ h5, digitChar_isHexDig _ h6]

/-- Witness for C9 at the channels (0, 0, 0). -/
theorem rgbToHex_format_witness :
    (rgbToHex 0 0 0).length = 7 ∧ (rgbToHex 0 0 0).toList.head? = some '#' ∧
      ∀ c ∈ (rgbToHex 0 0 0).toList.tail, isHexDig c = true :=
  rgbToHex_format 0 0 0 (by decide) (by decide) (by decide)

/-- C10: every slider input event and every randomize operation removes the
error state of the hex field unconditionally, whatever the previous state
held. -/
theorem ops_clear_error (s : PageState) (i : Fin 3) (v v1 v2 v3 : Nat) :
    (sliderInput i v s).error = false ∧ (randomButtonClick i v s).error = false ∧
      (randomAllClick v1 v2 v3 s).error = false := by
  unfold sliderInput randomButtonClick randomAllClick updateColors setChannel
  split_ifs <;> exact ⟨rfl, rfl, rfl⟩
